import Mathlib

/-!
# OTP lifecycle manager of bizkey-be — shallow embedding

This file embeds the OTP controller of the bizkey-be backend
(`sendOTP`, `verifyOTP`, `resendOTP`, `getOTPStatus` in the controller
bundled with `src/services/whatsappService.js`) together with the phone
number normalisation `formatPhoneNumber` of the WhatsApp service, and
proves the specified properties about them.

Modelling conventions:
* Time is in milliseconds (`Nat`), like JavaScript `Date` values; the
  current time `now` is a parameter of every operation (it models the
  `new Date()` calls).
* The Mongo collection of `Otp` documents is a `List OtpRecord`, newest
  first, so `List.find?` models `findOne(...).sort(createdAt: -1)`.
  Each document carries a synthetic `id` (Mongo `_id`); ids are assigned
  from a counter `nextId`, and `save()` writes back by id.
* The random code (`Otp.generateOTP()`) and the client's phone number
  (loaded from the external `Client` model) are parameters of the
  operations; the `Client`-not-found and missing-phone early returns are
  outside the modelled core, as is request validation.
* JavaScript arithmetic on dates is integer-valued here; `Math.floor`
  of a quotient by 1000 is Lean `Int` division (floor division for a
  positive divisor) and `Math.ceil` is its mirror image.
-/

namespace BizKey

/-- One `Otp` document. The schema file `models/Otp.js` is not in the
source tree; the field list is taken from its uses in the controller
(`client`, `otp`, `phone`, `createdAt`, `expiresAt`, `attempts`,
`isUsed`) plus the synthetic Mongo id. -/
structure OtpRecord where
  id : Nat
  client : Nat
  otp : String
  phone : String
  createdAt : Nat
  expiresAt : Nat
  attempts : Nat
  isUsed : Bool
deriving DecidableEq, Repr

/-- Modelled from the spec: the `Otp` model file (`models/Otp.js`) is
missing from the source tree, so its `isValid()` method is taken from
the spec's validity predicate — true iff `isUsed == false` and
`now < expiresAt` and `attempts < 3`. -/
def OtpRecord.isValid (r : OtpRecord) (now : Nat) : Bool :=
  !r.isUsed && decide (now < r.expiresAt) && decide (r.attempts < 3)

/-- The audit event types the OTP controller emits
(`models/Notification.js` also lists `otp_verified`, which the
controller never emits). -/
inductive NotifType where
  | otpSent
  | otpResent
deriving DecidableEq, Repr

/-- An audit event (`Notification` document), restricted to the fields
the OTP state machine determines: the action type, the acting salesman
(`req.user._id`), the affected client, and the link to the issued OTP
record (`otpId`).  The denormalised display fields
(`clientName`, `clientPhone`, `salesmanName`, `message`,
`deliveryMethod`) copy external `Client`/`User` data and are omitted. -/
structure Notification where
  type : NotifType
  salesman : Nat
  client : Nat
  otpId : Nat
deriving DecidableEq, Repr

/-- The persistent state: the `Otp` collection (newest first), the
`Notification` collection (newest first), and the id counter. -/
structure OtpState where
  records : List OtpRecord
  notifications : List Notification
  nextId : Nat
deriving DecidableEq, Repr

/-- `Otp.updateMany({ client: clientId, isUsed: false }, { isUsed: true })`:
mark every unused record of the client as used. -/
def supersede (recs : List OtpRecord) (c : Nat) : List OtpRecord :=
  recs.map (fun r => if r.client == c && !r.isUsed then { r with isUsed := true } else r)

/-- `otpRecord.save()`: write a document back by its id. -/
def saveById (recs : List OtpRecord) (i : Nat) (v : OtpRecord) : List OtpRecord :=
  recs.map (fun r => if r.id == i then v else r)

/-- `new Otp({ client, otp, phone })`.  Modelled from the spec for the
missing `models/Otp.js` schema defaults: a fresh record starts with
`attempts = 0`, `isUsed = false`, and `expiresAt = createdAt + 5 minutes`
(300000 ms). -/
def mkOtpRecord (i c : Nat) (code phone : String) (now : Nat) : OtpRecord :=
  { id := i, client := c, otp := code, phone := phone, createdAt := now,
    expiresAt := now + 300000, attempts := 0, isUsed := false }

/-- `new Notification({ type, salesman, client, ..., otpId })`. -/
def mkNotification (t : NotifType) (u c oid : Nat) : Notification :=
  { type := t, salesman := u, client := c, otpId := oid }

/-- The shared tail of `sendOTP` and `resendOTP`: supersede all unused
records of the client, create and save the new record, and (when the
request carries an authenticated user) save the audit notification. -/
def issueCore (t : NotifType) (c : Nat) (phone code : String) (user : Option Nat)
    (now : Nat) (s : OtpState) : OtpState × OtpRecord :=
  let newRec := mkOtpRecord s.nextId c code phone now
  let recs := newRec :: supersede s.records c
  let notifs :=
    match user with
    | some u => mkNotification t u c newRec.id :: s.notifications
    | none => s.notifications
  ({ records := recs, notifications := notifs, nextId := s.nextId + 1 }, newRec)

/-- The `sendOTP` controller action, from the supersession update
onwards (client lookup and validation happen before and are outside the
model; WhatsApp delivery is commented out in the source). -/
def sendOTP (c : Nat) (phone code : String) (user : Option Nat) (now : Nat)
    (s : OtpState) : OtpState × OtpRecord :=
  issueCore .otpSent c phone code user now s

/-- The four outcomes of the `verifyOTP` action:
`invalidNotFound` is the 400 "Invalid OTP" with no `attemptsLeft`
(lookup found nothing), `expired` is the 400 "OTP has expired or
exceeded maximum attempts", `invalidWithAttempts` is the 400
"Invalid OTP" carrying `attemptsLeft`, and `success` is the 200. -/
inductive VerifyResult where
  | invalidNotFound
  | expired
  | invalidWithAttempts (attemptsLeft : Int)
  | success
deriving DecidableEq, Repr

/-- `Otp.findOne({ client, otp, isUsed: false }).sort(createdAt: -1)`. -/
def findVerifyRecord (recs : List OtpRecord) (c : Nat) (code : String) :
    Option OtpRecord :=
  recs.find? (fun r => r.client == c && r.otp == code && !r.isUsed)

/-- The `verifyOTP` controller action. -/
def verifyOTP (c : Nat) (code : String) (now : Nat) (s : OtpState) :
    VerifyResult × OtpState :=
  match findVerifyRecord s.records c code with
  | none => (.invalidNotFound, s)
  | some r =>
    if !r.isValid now then
      (.expired, { s with records := saveById s.records r.id { r with isUsed := true } })
    else
      let r2 := { r with attempts := r.attempts + 1 }
      if r2.otp != code then
        (.invalidWithAttempts (3 - (r2.attempts : Int)),
         { s with records := saveById s.records r.id r2 })
      else
        (.success,
         { s with records := saveById s.records r.id { r2 with isUsed := true } })

/-- The two outcomes of `resendOTP`: the 429 with its wait time in
seconds, or the regenerated record. -/
inductive ResendResult where
  | rateLimited (waitTime : Int)
  | created (r : OtpRecord)
deriving DecidableEq, Repr

/-- `Otp.findOne({ client, isUsed: false }).sort(createdAt: -1)`. -/
def findLatestActive (recs : List OtpRecord) (c : Nat) : Option OtpRecord :=
  recs.find? (fun r => r.client == c && !r.isUsed)

/-- `Math.ceil((minInterval - timeSinceLastOTP) / 1000)` for
`minInterval = 30000`: the ceiling of an integer quotient, written with
Lean's floor division. -/
def resendWaitTime (t : Int) : Int :=
  -(-(30000 - t) / 1000)

/-- The fall-through tail of `resendOTP`: when the cooldown does not
apply, regenerate exactly as `sendOTP` does, but with an `otp_resent`
audit event. -/
def resendProceed (c : Nat) (phone code : String) (user : Option Nat) (now : Nat)
    (s : OtpState) : ResendResult × OtpState :=
  (.created (issueCore .otpResent c phone code user now s).2,
   (issueCore .otpResent c phone code user now s).1)

/-- The `resendOTP` controller action, from the cooldown check onwards.
The source guards the 429 with two nested ifs (`existingOTP &&
existingOTP.isValid()`, then `timeSinceLastOTP < minInterval`) whose
else-branches both fall through to the regeneration code; they are
folded into one conjunction here. -/
def resendOTP (c : Nat) (phone code : String) (user : Option Nat) (now : Nat)
    (s : OtpState) : ResendResult × OtpState :=
  match findLatestActive s.records c with
  | some r =>
    if r.isValid now && decide ((now : Int) - (r.createdAt : Int) < 30000) then
      (.rateLimited (resendWaitTime ((now : Int) - (r.createdAt : Int))), s)
    else resendProceed c phone code user now s
  | none => resendProceed c phone code user now s

/-- The response of `getOTPStatus`: either the "No OTP found" payload
(which carries `hasActiveOTP: false`), or the full status payload. -/
inductive OtpStatusResult where
  | noOtp
  | info (hasActiveOTP : Bool) (isUsed : Bool) (attempts : Nat) (timeLeft : Int)
deriving DecidableEq, Repr

/-- The `hasActiveOTP` field of either response shape. -/
def OtpStatusResult.hasActive : OtpStatusResult → Bool
  | .noOtp => false
  | .info h _ _ _ => h

/-- `Otp.findOne({ client }).sort(createdAt: -1)` — no `isUsed` filter. -/
def findLatestAny (recs : List OtpRecord) (c : Nat) : Option OtpRecord :=
  recs.find? (fun r => r.client == c)

/-- The `getOTPStatus` controller action.  It only reads: its type has
no state component.  `timeLeft` is
`Math.max(0, Math.floor((expiresAt - now) / 1000))`. -/
def getOTPStatus (c : Nat) (now : Nat) (s : OtpState) : OtpStatusResult :=
  match findLatestAny s.records c with
  | none => .noOtp
  | some r =>
    .info (r.isValid now) r.isUsed r.attempts
      (max 0 (((r.expiresAt : Int) - (now : Int)) / 1000))

/-- One request against the OTP controller, for stating invariants that
range over all four actions. -/
inductive Op where
  | send (c : Nat) (phone code : String) (user : Option Nat)
  | verify (c : Nat) (code : String)
  | resend (c : Nat) (phone code : String) (user : Option Nat)
  | status (c : Nat)
deriving DecidableEq, Repr

/-- The state after one request.  `getOTPStatus` returns no state: it
is read-only by construction. -/
def applyOp (op : Op) (now : Nat) (s : OtpState) : OtpState :=
  match op with
  | .send c ph code u => (sendOTP c ph code u now s).1
  | .verify c code => (verifyOTP c code now s).2
  | .resend c ph code u => (resendOTP c ph code u now s).2
  | .status _ => s

/-- The unused (active) records of a client, in store order. -/
def activeRecords (s : OtpState) (c : Nat) : List OtpRecord :=
  s.records.filter (fun r => r.client == c && !r.isUsed)

/-- Well-formedness of the store: every document id is below the id
counter, so the id of a newly created record is fresh. -/
def WF (s : OtpState) : Prop :=
  ∀ r ∈ s.records, r.id < s.nextId

/-- `phone.replace(/\D/g, '')` of `formatPhoneNumber`: keep exactly the
decimal digits of the input, in order. -/
def cleanDigits (p : String) : String :=
  String.mk (p.toList.filter (fun ch => ch.isDigit))

/-- `WhatsAppService.formatPhoneNumber`: strip non-digits, and when the
cleaned number has exactly 10 digits, prepend the India country code. -/
def formatPhoneNumber (p : String) : String :=
  let cleanPhone := cleanDigits p
  if cleanPhone.length = 10 then "91" ++ cleanPhone else cleanPhone

/-- A concrete record for counterexamples and witnesses: a fresh unused
code for client 1, issued at time 0, expiring at 300000 ms, no attempts
yet. -/
def sampleRecord : OtpRecord :=
  { id := 0, client := 1, otp := "123456", phone := "9876543210",
    createdAt := 0, expiresAt := 300000, attempts := 0, isUsed := false }

/-- A one-record store holding `sampleRecord`. -/
def sampleState : OtpState :=
  { records := [sampleRecord], notifications := [], nextId := 1 }

/-- A one-record store whose only record is already used. -/
def sampleUsedState : OtpState :=
  { records := [{ sampleRecord with isUsed := true }],
    notifications := [], nextId := 1 }

/-! ## Helper lemmas -/

lemma filter_supersede (recs : List OtpRecord) (c : Nat) :
    (supersede recs c).filter (fun r => r.client == c && !r.isUsed) = [] := by
  rw [List.filter_eq_nil_iff]
  intro x hx
  simp only [supersede, List.mem_map] at hx
  obtain ⟨r0, _, rfl⟩ := hx
  by_cases h : (r0.client == c && !r0.isUsed) = true
  · rw [if_pos h]; simp
  · rw [if_neg h]; simpa using h

lemma mem_supersede {recs : List OtpRecord} {c : Nat} {x : OtpRecord}
    (hx : x ∈ supersede recs c) :
    ∃ r0 ∈ recs, x.id = r0.id ∧ (x.isUsed = true ∨ x = r0) := by
  simp only [supersede, List.mem_map] at hx
  obtain ⟨r0, hr0, heq⟩ := hx
  by_cases h : (r0.client == c && !r0.isUsed) = true
  · rw [if_pos h] at heq
    exact ⟨r0, hr0, by rw [← heq], Or.inl (by rw [← heq])⟩
  · rw [if_neg h] at heq
    exact ⟨r0, hr0, by rw [← heq], Or.inr heq.symm⟩

lemma mem_saveById {recs : List OtpRecord} {j : Nat} {v x : OtpRecord}
    (hx : x ∈ saveById recs j v) : x = v ∨ (x ∈ recs ∧ x.id ≠ j) := by
  simp only [saveById, List.mem_map] at hx
  obtain ⟨r0, hr0, heq⟩ := hx
  by_cases h : (r0.id == j) = true
  · rw [if_pos h] at heq
    exact Or.inl heq.symm
  · rw [if_neg h] at heq
    refine Or.inr ⟨heq ▸ hr0, ?_⟩
    rw [← heq]
    simpa using h

lemma eq_of_length_le_one {α : Type} {l : List α} (h : l.length ≤ 1) {a b : α}
    (ha : a ∈ l) (hb : b ∈ l) : a = b := by
  match l with
  | [] => cases ha
  | [x] =>
    simp only [List.mem_singleton] at ha hb
    rw [ha, hb]
  | x :: y :: rest => simp at h

lemma activeRecords_issueCore (t : NotifType) (c : Nat) (ph code : String)
    (u : Option Nat) (now : Nat) (s : OtpState) :
    activeRecords (issueCore t c ph code u now s).1 c =
      [(issueCore t c ph code u now s).2] := by
  simp only [activeRecords, issueCore, mkOtpRecord]
  rw [List.filter_cons]
  simp only [beq_self_eq_true, Bool.not_false, Bool.and_self, if_pos]
  rw [filter_supersede]

lemma resendOTP_split (c : Nat) (ph code : String) (u : Option Nat) (now : Nat)
    (s : OtpState) :
    (∃ r, findLatestActive s.records c = some r ∧ r.isValid now = true ∧
        (now : Int) - (r.createdAt : Int) < 30000 ∧
        resendOTP c ph code u now s =
          (.rateLimited (resendWaitTime ((now : Int) - (r.createdAt : Int))), s)) ∨
    resendOTP c ph code u now s = resendProceed c ph code u now s := by
  cases hf : findLatestActive s.records c with
  | none => exact Or.inr (by simp only [resendOTP, hf])
  | some r =>
    by_cases hv : (r.isValid now && decide ((now : Int) - (r.createdAt : Int) < 30000)) = true
    · refine Or.inl ⟨r, rfl, ?_, ?_, ?_⟩
      · exact (Bool.and_eq_true .. ▸ hv).1
      · exact of_decide_eq_true (Bool.and_eq_true .. ▸ hv).2
      · simp only [resendOTP, hf, if_pos hv]
    · exact Or.inr (by simp only [resendOTP, hf, if_neg hv])

lemma findVerifyRecord_spec {recs : List OtpRecord} {c : Nat} {code : String}
    {r : OtpRecord} (hf : findVerifyRecord recs c code = some r) :
    r ∈ recs ∧ r.client = c ∧ r.otp = code ∧ r.isUsed = false := by
  simp only [findVerifyRecord] at hf
  have hmem := List.mem_of_find?_eq_some hf
  have hp := List.find?_some hf
  simp only [Bool.and_eq_true, beq_iff_eq, Bool.not_eq_true'] at hp
  exact ⟨hmem, hp.1.1, hp.1.2, hp.2⟩

lemma findLatestActive_spec {recs : List OtpRecord} {c : Nat} {r : OtpRecord}
    (hf : findLatestActive recs c = some r) :
    r ∈ recs ∧ r.client = c ∧ r.isUsed = false := by
  simp only [findLatestActive] at hf
  have hmem := List.mem_of_find?_eq_some hf
  have hp := List.find?_some hf
  simp only [Bool.and_eq_true, beq_iff_eq, Bool.not_eq_true'] at hp
  exact ⟨hmem, hp.1, hp.2⟩

lemma verifyOTP_not_found (c : Nat) (code : String) (now : Nat) (s : OtpState)
    (h : ∀ r ∈ s.records, r.client = c → r.otp = code → r.isUsed = true) :
    verifyOTP c code now s = (.invalidNotFound, s) := by
  have hf : findVerifyRecord s.records c code = none := by
    simp only [findVerifyRecord]
    rw [List.find?_eq_none]
    intro x hx hp
    simp only [Bool.and_eq_true, beq_iff_eq, Bool.not_eq_true'] at hp
    rw [h x hx hp.1.1 hp.1.2] at hp
    cases hp.2
  simp [verifyOTP, hf]

lemma verifyOTP_success (c : Nat) (code : String) (now : Nat) (s : OtpState)
    (r : OtpRecord) (hf : findVerifyRecord s.records c code = some r)
    (hv : r.isValid now = true) :
    verifyOTP c code now s =
      (.success, { s with records := (saveById s.records r.id
        { r with attempts := r.attempts + 1, isUsed := true }) }) := by
  obtain ⟨_, _, hotp, _⟩ := findVerifyRecord_spec hf
  simp [verifyOTP, hf, hv, hotp]

lemma verifyOTP_records_found (c : Nat) (code : String) (now : Nat) (s : OtpState)
    (r : OtpRecord) (hf : findVerifyRecord s.records c code = some r) :
    ∃ v : OtpRecord, v.id = r.id ∧
      (verifyOTP c code now s).2.records = saveById s.records r.id v := by
  simp only [verifyOTP, hf]
  split
  · exact ⟨{ r with isUsed := true }, rfl, rfl⟩
  · split
    · exact ⟨{ r with attempts := r.attempts + 1 }, rfl, rfl⟩
    · exact ⟨{ r with attempts := r.attempts + 1, isUsed := true }, rfl, rfl⟩

/-! ## Claims -/

/-- Claim C1: after a completed issue (`sendOTP`), the newly created
record is the only unused record of the client; a resend (`resendOTP`)
either rejects with the rate limit, leaving the store unchanged, or
likewise leaves its new record as the only unused one.  In particular,
at most one `OtpRecord` with `isUsed = false` exists for the client
after either operation: both mark every existing unused record of the
client as used before persisting the new one. -/
theorem single_active_otp_invariant (c : Nat) (ph code : String) (u : Option Nat)
    (now : Nat) (s : OtpState) :
    activeRecords (sendOTP c ph code u now s).1 c = [(sendOTP c ph code u now s).2] ∧
    (∀ w, (resendOTP c ph code u now s).1 = .rateLimited w →
      (resendOTP c ph code u now s).2 = s) ∧
    ∀ r, (resendOTP c ph code u now s).1 = .created r →
      activeRecords (resendOTP c ph code u now s).2 c = [r] := by
  refine ⟨activeRecords_issueCore .otpSent c ph code u now s, ?_, ?_⟩
  · intro w hw
    rcases resendOTP_split c ph code u now s with ⟨r, _, _, _, heq⟩ | heq
    · rw [heq]
    · rw [heq] at hw
      cases hw
  · intro r hr
    rcases resendOTP_split c ph code u now s with ⟨r2, _, _, _, heq⟩ | heq
    · rw [heq] at hr
      cases hr
    · rw [heq] at hr ⊢
      simp only [resendProceed] at hr ⊢
      cases hr
      exact activeRecords_issueCore .otpResent c ph code u now s

/-- Witness for C1: issuing on the sample store leaves exactly the new
record active; resending 1 second after issue is rate limited and
leaves the store unchanged. -/
theorem single_active_otp_invariant_witness :
    activeRecords (sendOTP 1 "9876543210" "222222" none 1000 sampleState).1 1 =
      [(sendOTP 1 "9876543210" "222222" none 1000 sampleState).2] ∧
    (resendOTP 1 "9876543210" "222222" none 1000 sampleState).2 = sampleState :=
  ⟨(single_active_otp_invariant 1 "9876543210" "222222" none 1000 sampleState).1,
   (single_active_otp_invariant 1 "9876543210" "222222" none 1000 sampleState).2.1
     29 (by decide)⟩

/-- Claim C10: `formatPhoneNumber` keeps exactly the decimal digits of
its input in order, prefixes the country code 91 exactly when the
cleaned number has 10 digits, returns the cleaned digits unchanged
otherwise, and maps "9876543210" to "919876543210". -/
theorem formatPhoneNumber_normalises (p : String) :
    (cleanDigits p).toList = p.toList.filter (fun ch => ch.isDigit) ∧
    ((cleanDigits p).length = 10 →
      formatPhoneNumber p = "91" ++ cleanDigits p) ∧
    ((cleanDigits p).length ≠ 10 → formatPhoneNumber p = cleanDigits p) ∧
    formatPhoneNumber "9876543210" = "919876543210" := by
  refine ⟨rfl, ?_, ?_, by decide⟩
  · intro h
    simp [formatPhoneNumber, h]
  · intro h
    simp [formatPhoneNumber, h]

/-- Witness for C10 on an input with separators: the cleaned form has
10 digits and the country code is prefixed. -/
theorem formatPhoneNumber_normalises_witness :
    (cleanDigits "98 7654-3210").length = 10 ∧
    formatPhoneNumber "98 7654-3210" = "91" ++ cleanDigits "98 7654-3210" :=
  ⟨by decide, (formatPhoneNumber_normalises "98 7654-3210").2.1 (by decide)⟩

/-- Counterexample to claim C2 as stated: on a fresh, still-valid
record with code "123456", submitting the wrong code "000000" never
reaches the attempts-increment branch — the lookup, which filters on
the submitted code, finds nothing, so the response is the plain
invalid-OTP error with no `attemptsLeft` and the store is unchanged
(`attempts` stays 0), not the claimed `attemptsLeft = 2`. -/
theorem verify_wrong_code_counterexample :
    verifyOTP 1 "000000" 1000 sampleState = (.invalidNotFound, sampleState) ∧
    (verifyOTP 1 "000000" 1000 sampleState).1 ≠ .invalidWithAttempts 2 := by
  decide

/-- Claim C2 amended: a `verifyOTP` call whose submitted code matches
no unused record of the client fails with the plain invalid-OTP error,
reports no `attemptsLeft`, and leaves the store unchanged — the
attempts counter is not incremented on a wrong code, because the
lookup filters on the submitted code and therefore never finds a
record whose stored code differs from the submission. -/
theorem verify_wrong_code_no_attempts (c : Nat) (code : String) (now : Nat)
    (s : OtpState)
    (h : ∀ r ∈ s.records, r.client = c → r.otp = code → r.isUsed = true) :
    verifyOTP c code now s = (.invalidNotFound, s) :=
  verifyOTP_not_found c code now s h

/-- Witness for the amended C2: the wrong code "000000" on the sample
store yields the plain invalid-OTP response and no state change. -/
theorem verify_wrong_code_no_attempts_witness :
    verifyOTP 1 "000000" 1000 sampleState = (.invalidNotFound, sampleState) :=
  verify_wrong_code_no_attempts 1 "000000" 1000 sampleState (by decide)

/-- Counterexample to claim C3 as stated: after three wrong-code
verification calls on the sample store, the third failure is the plain
invalid-OTP error, not one reporting `attemptsLeft = 0`, and the
fourth call with the correct code succeeds instead of failing with the
expired error — wrong-code calls never increment `attempts`, so no
lockout occurs. -/
theorem three_wrong_attempts_counterexample :
    (verifyOTP 1 "000002" 3000
        ((verifyOTP 1 "000001" 2000 ((verifyOTP 1 "000000" 1000 sampleState).2)).2)).1 =
      .invalidNotFound ∧
    (verifyOTP 1 "000002" 3000
        ((verifyOTP 1 "000001" 2000 ((verifyOTP 1 "000000" 1000 sampleState).2)).2)).1 ≠
      .invalidWithAttempts 0 ∧
    (verifyOTP 1 "123456" 4000
        ((verifyOTP 1 "000002" 3000
          ((verifyOTP 1 "000001" 2000 ((verifyOTP 1 "000000" 1000 sampleState).2)).2)).2)).1 =
      .success := by
  decide

/-- Claim C3 amended: wrong-code verification calls do not increment
`attempts` and do not lock the record — each leaves the store unchanged
and fails with the plain invalid-OTP error, and a subsequent call with
the correct code on a still-valid record succeeds no matter how many
wrong-code calls preceded it. -/
theorem wrong_attempts_do_not_lock (c : Nat) (wrong good : String)
    (now1 now2 : Nat) (s : OtpState) (r : OtpRecord)
    (hw : ∀ e ∈ s.records, e.client = c → e.otp = wrong → e.isUsed = true)
    (hg : findVerifyRecord s.records c good = some r)
    (hv : r.isValid now2 = true) :
    verifyOTP c wrong now1 s = (.invalidNotFound, s) ∧
    (verifyOTP c good now2 (verifyOTP c wrong now1 s).2).1 = .success := by
  have h1 := verifyOTP_not_found c wrong now1 s hw
  refine ⟨h1, ?_⟩
  rw [h1]
  rw [verifyOTP_success c good now2 s r hg hv]

/-- Witness for the amended C3: a wrong code leaves the sample store
unchanged and the correct code then still verifies. -/
theorem wrong_attempts_do_not_lock_witness :
    verifyOTP 1 "000000" 1000 sampleState = (.invalidNotFound, sampleState) ∧
    (verifyOTP 1 "123456" 2000 (verifyOTP 1 "000000" 1000 sampleState).2).1 =
      .success :=
  wrong_attempts_do_not_lock 1 "000000" "123456" 1000 2000 sampleState
    sampleRecord (by decide) (by decide) (by decide)

/-- Claim C4: the `verifyOTP` lookup filters on the submitted code, so
a found record already matches it; the wrong-code branch that would
increment `attempts` and report `attemptsLeft` is unreachable, and
every call that finds a record passing the validity predicate succeeds
and marks that record used. -/
theorem verify_wrong_branch_unreachable (c : Nat) (code : String) (now : Nat)
    (s : OtpState) :
    (∀ n, (verifyOTP c code now s).1 ≠ .invalidWithAttempts n) ∧
    ∀ r, findVerifyRecord s.records c code = some r → r.isValid now = true →
      (verifyOTP c code now s).1 = .success ∧
      ∀ e ∈ (verifyOTP c code now s).2.records, e.id = r.id → e.isUsed = true := by
  constructor
  · intro n
    cases hf : findVerifyRecord s.records c code with
    | none => simp [verifyOTP, hf]
    | some r =>
      obtain ⟨_, _, hotp, _⟩ := findVerifyRecord_spec hf
      by_cases hv : r.isValid now = true
      · rw [verifyOTP_success c code now s r hf hv]
        simp
      · rw [Bool.not_eq_true] at hv
        simp [verifyOTP, hf, hv]
  · intro r hf hv
    have heq := verifyOTP_success c code now s r hf hv
    refine ⟨by rw [heq], ?_⟩
    rw [heq]
    intro e he hid
    rcases mem_saveById he with rfl | ⟨_, hne⟩
    · rfl
    · exact absurd hid hne

/-- Witness for C4: on the sample store the correct code succeeds and
the record ends up used. -/
theorem verify_wrong_branch_unreachable_witness :
    (verifyOTP 1 "123456" 1000 sampleState).1 = .success ∧
    ∀ e ∈ (verifyOTP 1 "123456" 1000 sampleState).2.records,
      e.id = sampleRecord.id → e.isUsed = true :=
  (verify_wrong_branch_unreachable 1 "123456" 1000 sampleState).2 sampleRecord
    (by decide) (by decide)

/-- Claim C7: when `verifyOTP` finds a matching unused record but the
validity predicate fails (expired or attempts exhausted), it marks that
record used, persists it, and fails with the expired error. -/
theorem verify_invalid_record_expired (c : Nat) (code : String) (now : Nat)
    (s : OtpState) (r : OtpRecord)
    (hf : findVerifyRecord s.records c code = some r)
    (hv : r.isValid now = false) :
    (verifyOTP c code now s).1 = .expired ∧
    (verifyOTP c code now s).2.records =
      saveById s.records r.id { r with isUsed := true } ∧
    ∀ e ∈ (verifyOTP c code now s).2.records, e.id = r.id → e.isUsed = true := by
  have h1 : verifyOTP c code now s =
      (.expired, { s with records := saveById s.records r.id { r with isUsed := true } }) := by
    simp [verifyOTP, hf, hv]
  refine ⟨by rw [h1], by rw [h1], ?_⟩
  rw [h1]
  intro e he hid
  rcases mem_saveById he with rfl | ⟨_, hne⟩
  · rfl
  · exact absurd hid hne

/-- Witness for C7: verifying the stored code after expiry marks the
sample record used and reports the expired error. -/
theorem verify_invalid_record_expired_witness :
    (verifyOTP 1 "123456" 400000 sampleState).1 = .expired ∧
    ∀ e ∈ (verifyOTP 1 "123456" 400000 sampleState).2.records,
      e.id = sampleRecord.id → e.isUsed = true :=
  ⟨(verify_invalid_record_expired 1 "123456" 400000 sampleState sampleRecord
      (by decide) (by decide)).1,
   (verify_invalid_record_expired 1 "123456" 400000 sampleState sampleRecord
      (by decide) (by decide)).2.2⟩

lemma usedAt_issueCore (t : NotifType) (c : Nat) (ph code : String)
    (u : Option Nat) (now : Nat) (s : OtpState) (i : Nat) (hi : i < s.nextId)
    (hused : ∀ r ∈ s.records, r.id = i → r.isUsed = true) :
    ∀ r ∈ (issueCore t c ph code u now s).1.records, r.id = i → r.isUsed = true := by
  intro r hr hid
  simp only [issueCore] at hr
  rcases List.mem_cons.1 hr with rfl | hr2
  · exact absurd hid (by simp only [mkOtpRecord]; omega)
  · obtain ⟨r0, hr0, hideq, hcase⟩ := mem_supersede hr2
    rcases hcase with hu | rfl
    · exact hu
    · exact hused r hr0 hid

lemma verifyOTP_found_id_ne {c : Nat} {code : String} {s : OtpState} {i : Nat}
    {r : OtpRecord} (hf : findVerifyRecord s.records c code = some r)
    (hused : ∀ e ∈ s.records, e.id = i → e.isUsed = true) : r.id ≠ i := by
  obtain ⟨hmem, _, _, hun⟩ := findVerifyRecord_spec hf
  intro h
  rw [hused r hmem h] at hun
  cases hun

lemma usedAt_verify (c : Nat) (code : String) (now : Nat) (s : OtpState) (i : Nat)
    (hused : ∀ r ∈ s.records, r.id = i → r.isUsed = true) :
    ∀ r ∈ (verifyOTP c code now s).2.records, r.id = i → r.isUsed = true := by
  cases hf : findVerifyRecord s.records c code with
  | none =>
    simp only [verifyOTP, hf]
    exact hused
  | some r =>
    have hne := verifyOTP_found_id_ne hf hused
    obtain ⟨v, hvid, hrecs⟩ := verifyOTP_records_found c code now s r hf
    rw [hrecs]
    intro e he hid
    rcases mem_saveById he with rfl | ⟨hmem, _⟩
    · exact absurd (hvid ▸ hid) hne
    · exact hused e hmem hid

/-- The unused records of a client after a successful verification:
none are left, given that at most one was active before. -/
lemma no_active_after_success (c : Nat) (code : String) (now : Nat) (s : OtpState)
    (hlen : (activeRecords s c).length ≤ 1)
    (hs : (verifyOTP c code now s).1 = .success) :
    activeRecords (verifyOTP c code now s).2 c = [] := by
  cases hf : findVerifyRecord s.records c code with
  | none => simp [verifyOTP, hf] at hs
  | some r =>
    obtain ⟨hmem, hc, hotp, hun⟩ := findVerifyRecord_spec hf
    by_cases hv : r.isValid now = true
    · rw [verifyOTP_success c code now s r hf hv]
      simp only [activeRecords]
      rw [List.filter_eq_nil_iff]
      intro x hx hp
      simp only [Bool.and_eq_true, beq_iff_eq, Bool.not_eq_true'] at hp
      have hrmem : r ∈ activeRecords s c :=
        List.mem_filter.2 ⟨hmem, by simp [hc, hun]⟩
      rcases mem_saveById hx with rfl | ⟨hxmem, hxne⟩
      · cases hp.2
      · have hxact : x ∈ activeRecords s c :=
          List.mem_filter.2 ⟨hxmem, by simp [hp.1, hp.2]⟩
        exact hxne (congrArg OtpRecord.id (eq_of_length_le_one hlen hxact hrmem))
    · rw [Bool.not_eq_true] at hv
      simp [verifyOTP, hf, hv] at hs

lemma verify_no_active_not_success (c : Nat) (code : String) (now : Nat)
    (s : OtpState) (h : activeRecords s c = []) :
    (verifyOTP c code now s).1 ≠ .success := by
  have hf : findVerifyRecord s.records c code = none := by
    simp only [findVerifyRecord]
    rw [List.find?_eq_none]
    intro x hx hp
    simp only [Bool.and_eq_true, beq_iff_eq, Bool.not_eq_true'] at hp
    have : x ∈ activeRecords s c :=
      List.mem_filter.2 ⟨hx, by simp [hp.1.1, hp.2]⟩
    rw [h] at this
    cases this
  simp [verifyOTP, hf]

/-- Claim C5: `isUsed` is terminal — no operation (send, verify,
resend, status) resets it to false on an existing record — and a
successfully verified code can never be verified again: under the
single-active invariant, any verification after a successful one
returns an error, never success. -/
theorem isUsed_terminal (op : Op) (now : Nat) (s : OtpState) (i : Nat)
    (hi : i < s.nextId)
    (hused : ∀ r ∈ s.records, r.id = i → r.isUsed = true) :
    (∀ r ∈ (applyOp op now s).records, r.id = i → r.isUsed = true) ∧
    ∀ c code now2 s2, (activeRecords s2 c).length ≤ 1 →
      (verifyOTP c code now2 s2).1 = .success →
      ∀ code2 now3,
        (verifyOTP c code2 now3 (verifyOTP c code now2 s2).2).1 ≠ .success := by
  constructor
  · cases op with
    | send c2 ph code2 u =>
      simp only [applyOp, sendOTP]
      exact usedAt_issueCore .otpSent c2 ph code2 u now s i hi hused
    | verify c2 code2 =>
      simp only [applyOp]
      exact usedAt_verify c2 code2 now s i hused
    | resend c2 ph code2 u =>
      simp only [applyOp]
      rcases resendOTP_split c2 ph code2 u now s with ⟨r, _, _, _, heq⟩ | heq
      · rw [heq]
        exact hused
      · rw [heq]
        simp only [resendProceed]
        exact usedAt_issueCore .otpResent c2 ph code2 u now s i hi hused
    | status c2 =>
      simp only [applyOp]
      exact hused
  · intro c2 code2 now2 s2 hlen hs code3 now3
    exact verify_no_active_not_success c2 code3 now3 _
      (no_active_after_success c2 code2 now2 s2 hlen hs)

/-- Witness for C5: verifying against a store whose only record is
already used cannot turn it back to unused. -/
theorem isUsed_terminal_witness :
    0 < sampleUsedState.nextId ∧
    ∀ r ∈ (applyOp (.verify 1 "123456") 1000 sampleUsedState).records,
      r.id = 0 → r.isUsed = true :=
  ⟨by decide,
   (isUsed_terminal (.verify 1 "123456") 1000 sampleUsedState 0 (by decide)
     (by decide)).1⟩

/-- Claim C6: when the latest unused record of the client passes the
validity predicate and was created less than 30 seconds before `now`,
`resendOTP` rejects with the rate limit; the wait time is the ceiling
of the remaining interval in whole seconds and, for a record created in
the past, lies between 1 and 30.  In every other case `resendOTP`
supersedes and creates exactly as the issue operation does. -/
theorem resend_cooldown (c : Nat) (ph code : String) (u : Option Nat) (now : Nat)
    (s : OtpState) :
    (∀ r, findLatestActive s.records c = some r → r.isValid now = true →
      (now : Int) - (r.createdAt : Int) < 30000 →
      resendOTP c ph code u now s =
        (.rateLimited (resendWaitTime ((now : Int) - (r.createdAt : Int))), s) ∧
      (r.createdAt ≤ now →
        1 ≤ resendWaitTime ((now : Int) - (r.createdAt : Int)) ∧
        resendWaitTime ((now : Int) - (r.createdAt : Int)) ≤ 30)) ∧
    ((∀ r, findLatestActive s.records c = some r →
        r.isValid now = true → 30000 ≤ (now : Int) - (r.createdAt : Int)) →
      (resendOTP c ph code u now s).1 = .created (sendOTP c ph code u now s).2 ∧
      (resendOTP c ph code u now s).2.records = (sendOTP c ph code u now s).1.records ∧
      (resendOTP c ph code u now s).2.nextId = (sendOTP c ph code u now s).1.nextId) := by
  constructor
  · intro r hf hv ht
    constructor
    · have hcond : (r.isValid now &&
          decide ((now : Int) - (r.createdAt : Int) < 30000)) = true := by
        simp [hv, ht]
      simp only [resendOTP, hf, if_pos hcond]
    · intro hcr
      simp only [resendWaitTime]
      omega
  · intro h
    rcases resendOTP_split c ph code u now s with ⟨r, hf, hv, ht, _⟩ | heq
    · exact absurd (h r hf hv) (by omega)
    · rw [heq]
      exact ⟨rfl, rfl, rfl⟩

/-- Witness for C6: resending 1 second after issue is rate limited with
a 29 second wait; resending 40 seconds after issue regenerates with the
same record and store contents as an issue. -/
theorem resend_cooldown_witness :
    resendOTP 1 "9876543210" "222222" none 1000 sampleState =
      (.rateLimited 29, sampleState) ∧
    (resendOTP 1 "9876543210" "222222" none 40000 sampleState).2.records =
      (sendOTP 1 "9876543210" "222222" none 40000 sampleState).1.records := by
  constructor
  · have h := ((resend_cooldown 1 "9876543210" "222222" none 1000 sampleState).1
      sampleRecord (by decide) (by decide) (by decide)).1
    rw [h]
    decide
  · refine ((resend_cooldown 1 "9876543210" "222222" none 40000 sampleState).2 ?_).2.1
    intro r hr hv
    have : sampleRecord = r := Option.some.inj hr
    rw [← this]
    decide

/-- Claim C8: `getOTPStatus` mutates nothing (the status request maps
the store to itself, and the query returns no state), answers
`hasActiveOTP = false` for a client with no record, and otherwise
reports the validity flag, the used flag, the attempt count, and the
whole seconds remaining until expiry clamped at zero. -/
theorem status_read_only_fields (c : Nat) (now : Nat) (s : OtpState) :
    applyOp (.status c) now s = s ∧
    (findLatestAny s.records c = none →
      getOTPStatus c now s = .noOtp ∧ (getOTPStatus c now s).hasActive = false) ∧
    ∀ r, findLatestAny s.records c = some r →
      getOTPStatus c now s =
        .info (r.isValid now) r.isUsed r.attempts (((r.expiresAt - now) / 1000 : Nat)) := by
  refine ⟨rfl, ?_, ?_⟩
  · intro h
    constructor <;> simp [getOTPStatus, h, OtpStatusResult.hasActive]
  · intro r hr
    simp only [getOTPStatus, hr]
    congr 1
    omega

/-- Witness for C8: on the sample store, 1 second in, the status
reports an active unused record with 299 seconds left; a client with
no records gets the no-OTP answer. -/
theorem status_read_only_fields_witness :
    getOTPStatus 1 1000 sampleState = .info true false 0 299 ∧
    getOTPStatus 2 1000 sampleState = .noOtp := by
  constructor
  · have h := (status_read_only_fields 1 1000 sampleState).2.2 sampleRecord rfl
    rw [h]
    decide
  · exact ((status_read_only_fields 2 1000 sampleState).2.1 (by decide)).1

/-- Claim C9: every issue and resend that creates a record on a request
carrying an authenticated salesman saves an audit notification with the
action type, the acting salesman, the affected client, and the id of
the OTP record it created. -/
theorem audit_event_on_issue (c : Nat) (ph code : String) (u : Nat) (now : Nat)
    (s : OtpState) :
    mkNotification .otpSent u c (sendOTP c ph code (some u) now s).2.id ∈
      (sendOTP c ph code (some u) now s).1.notifications ∧
    ∀ r, (resendOTP c ph code (some u) now s).1 = .created r →
      mkNotification .otpResent u c r.id ∈
        (resendOTP c ph code (some u) now s).2.notifications := by
  constructor
  · exact List.mem_cons_self _ _
  · intro r hr
    rcases resendOTP_split c ph code (some u) now s with ⟨r2, _, _, _, heq⟩ | heq
    · rw [heq] at hr
      cases hr
    · rw [heq] at hr ⊢
      simp only [resendProceed] at hr ⊢
      cases hr
      exact List.mem_cons_self _ _

/-- Witness for C9: the resend 40 seconds after issue records an
`otp_resent` audit event for salesman 7, client 1, linked to the new
record with id 1. -/
theorem audit_event_on_issue_witness :
    mkNotification .otpResent 7 1 1 ∈
      (resendOTP 1 "9876543210" "222222" (some 7) 40000 sampleState).2.notifications := by
  have h := (audit_event_on_issue 1 "9876543210" "222222" 7 40000 sampleState).2
    { id := 1, client := 1, otp := "222222", phone := "9876543210",
      createdAt := 40000, expiresAt := 340000, attempts := 0, isUsed := false }
    (by decide)
  exact h

end BizKey
